import Mathlib

/-!
Verification of the qe-compiler configuration / plugin-registry subsystem.

The definitions below are a shallow embedding of the C++ sources:
* `QEConfig` and its accessors — include/Config/QEConfig.h
* `EnvVarConfigBuilder`       — lib/Config/EnvVarConfig.cpp
* `CLIConfigBuilder` and the CLI option state — lib/Config/CLIConfig.cpp
* `computeInputType` / `computeOutputType` — QEConfigCLOptions in CLIConfig.cpp
* `Diagnostic` / `emitDiagnostic` — lib/API/errors.cpp
* resource-path resolution — lib/QEC.cpp
* `TargetSystemInfo` bind/lookup — modelled from the spec (implementation
  file not available), see the doc comments there.

Effects are made explicit: in-place mutation becomes state passing,
`llvm::Error` becomes `Except String`, writes to `llvm::errs()` become an
explicit list of warning strings, and `getenv` becomes an explicit
environment record.
-/

instance {ε α : Type} [DecidableEq ε] [DecidableEq α] : DecidableEq (Except ε α) :=
  fun x y =>
    match x, y with
    | Except.error e, Except.error e' =>
      if h : e = e' then Decidable.isTrue (by rw [h])
      else Decidable.isFalse (by intro hh; cases hh; exact h rfl)
    | Except.error _, Except.ok _ => Decidable.isFalse (by intro hh; cases hh)
    | Except.ok _, Except.error _ => Decidable.isFalse (by intro hh; cases hh)
    | Except.ok a, Except.ok a' =>
      if h : a = a' then Decidable.isTrue (by rw [h])
      else Decidable.isFalse (by intro hh; cases hh; exact h rfl)

namespace qec

namespace config

/-- `enum QEVerbosity` (QEConfig.h). `VerbosityCnt` is the `_VerbosityCnt`
sentinel used by the CLI option to mean "no -verbosity flag was given". -/
inductive QEVerbosity where
  | Error
  | Warn
  | Info
  | Debug
  | VerbosityCnt
deriving DecidableEq

/-- `enum class EmitAction` (QEConfig.h). -/
inductive EmitAction where
  | Undetected
  | None
  | AST
  | ASTPretty
  | MLIR
  | Bytecode
  | WaveMem
  | QEM
  | QEQEM
deriving DecidableEq

/-- `enum class FileExtension` (QEConfig.h). -/
inductive FileExtension where
  | None
  | AST
  | ASTPretty
  | QASM
  | MLIR
  | Bytecode
  | WaveMem
  | QEM
  | QEQEM
deriving DecidableEq

/-- `enum class InputType` (QEConfig.h). -/
inductive InputType where
  | Undetected
  | QASM
  | MLIR
  | Bytecode
deriving DecidableEq

/-- `struct QEConfig : mlir::MlirOptMainConfig` (QEConfig.h, lines 88-245).
The fields of `QEConfig` proper, plus the fields inherited from
`MlirOptMainConfig` that the code in this repository reads or writes
(`emitBytecodeFlag` backs `shouldEmitBytecode()`; the `*Flag` opt fields and
`emitBytecodeVersion` / `irdlFileFlag` are copied by
`CLIConfigBuilder::populateConfig`). The debug-config and pass-pipeline
callback members are opaque collaborators and carry no claim-relevant
state, so they are not modelled. -/
structure QEConfig where
  targetName : Option String
  targetConfigPath : Option String
  inputType : InputType
  emitAction : EmitAction
  verbosityLevel : QEVerbosity
  addTargetPassesFlag : Bool
  showTargetsFlag : Bool
  showPayloadsFlag : Bool
  showConfigFlag : Bool
  payloadName : String
  emitPlaintextPayloadFlag : Bool
  includeSourceFlag : Bool
  compileTargetIRFlag : Bool
  bypassPayloadTargetCompilationFlag : Bool
  passPlugins : List String
  dialectPlugins : List String
  maxThreads : Option Nat
  emitBytecodeFlag : Bool
  allowUnregisteredDialectsFlag : Bool
  dumpPassPipelineFlag : Bool
  emitBytecodeVersion : Option Int
  irdlFileFlag : String
  enableDebuggerActionHookFlag : Bool
  useExplicitModuleFlag : Bool
  runReproducerFlag : Bool
  showDialectsFlag : Bool
  verifyDiagnosticsFlag : Bool
  verifyPassesFlag : Bool
  verifyRoundtripFlag : Bool
  splitInputFileFlag : Bool
deriving DecidableEq

/-- The in-class member initializers of `QEConfig` (QEConfig.h lines 210-244)
together with the `MlirOptMainConfig` defaults for the inherited fields. -/
def defaultQEConfig : QEConfig :=
  { targetName := none
    targetConfigPath := none
    inputType := InputType.Undetected
    emitAction := EmitAction.Undetected
    verbosityLevel := QEVerbosity.Warn
    addTargetPassesFlag := true
    showTargetsFlag := false
    showPayloadsFlag := false
    showConfigFlag := false
    payloadName := "-"
    emitPlaintextPayloadFlag := false
    includeSourceFlag := false
    compileTargetIRFlag := false
    bypassPayloadTargetCompilationFlag := false
    passPlugins := []
    dialectPlugins := []
    maxThreads := none
    emitBytecodeFlag := false
    allowUnregisteredDialectsFlag := false
    dumpPassPipelineFlag := false
    emitBytecodeVersion := none
    irdlFileFlag := ""
    enableDebuggerActionHookFlag := false
    useExplicitModuleFlag := false
    runReproducerFlag := false
    showDialectsFlag := false
    verifyDiagnosticsFlag := false
    verifyPassesFlag := true
    verifyRoundtripFlag := false
    splitInputFileFlag := false }

/-- `QEConfig::setPassPlugins` (QEConfig.h lines 188-191): the source stores
the argument into the `dialectPlugins` member. -/
def QEConfig.setPassPlugins (config : QEConfig) (plugins : List String) : QEConfig :=
  { config with dialectPlugins := plugins }

/-- `QEConfig::getPassPlugins` (QEConfig.h line 192): the source returns the
`dialectPlugins` member. -/
def QEConfig.getPassPlugins (config : QEConfig) : List String :=
  config.dialectPlugins

/-- `QEConfig::setDialectPlugins` (QEConfig.h lines 194-197). -/
def QEConfig.setDialectPlugins (config : QEConfig) (plugins : List String) : QEConfig :=
  { config with dialectPlugins := plugins }

/-- `QEConfig::getDialectPlugins` (QEConfig.h line 198). -/
def QEConfig.getDialectPlugins (config : QEConfig) : List String :=
  config.dialectPlugins

/-- The callback installed on the `-max-threads` CLI option
(CLIConfig.cpp lines 459-462): only a strictly positive parsed value is
stored; the option is an `llvm::cl::opt<int>` with default `-1`. -/
def maxThreadsCallback (cliMaxThreads : Int) (config : QEConfig) : QEConfig :=
  if cliMaxThreads > 0 then { config with maxThreads := some cliMaxThreads.toNat }
  else config

/-- Modelled from the spec: the implementation of `strToFileExtension`
(declared in QEConfig.h line 76, body not available). Maps a recognized
extension string to the `FileExtension` enumeration; unrecognized strings
map to `FileExtension.None`. The recognized spellings follow the spec's
examples ("prog.qasm" / "prog.mlir" / "prog.bc", "out.mlir" / "out.qem")
and the enumeration's remaining members. -/
def strToFileExtension (extStr : String) : FileExtension :=
  if extStr = "ast" then FileExtension.AST
  else if extStr = "ast-pretty" then FileExtension.ASTPretty
  else if extStr = "qasm" then FileExtension.QASM
  else if extStr = "mlir" then FileExtension.MLIR
  else if extStr = "bc" then FileExtension.Bytecode
  else if extStr = "wmem" then FileExtension.WaveMem
  else if extStr = "qem" then FileExtension.QEM
  else if extStr = "qeqem" then FileExtension.QEQEM
  else FileExtension.None

/-- The characters after the last dot of the string, or `none` when the
string contains no dot. -/
def afterLastDot : List Char → Option (List Char)
  | [] => none
  | c :: rest =>
    match afterLastDot rest with
    | some e => some e
    | none => if c = '.' then some rest else none

/-- Modelled from the spec: the implementation of `getExtension`
(declared in QEConfig.h line 78, body not available). Extracts the
file-name extension (the part after the last dot) and classifies it with
`strToFileExtension`; a name without a dot has no recognizable extension. -/
def getExtension (inStr : String) : FileExtension :=
  match afterLastDot inStr.toList with
  | some e => strToFileExtension (String.mk e)
  | none => FileExtension.None

/-- Modelled from the spec: the implementation of `fileExtensionToInputType`
(declared in QEConfig.h line 72, body not available). Maps a recognized
extension to source-language / IR / bytecode input; anything else is
`Undetected`. -/
def fileExtensionToInputType (inExt : FileExtension) : InputType :=
  match inExt with
  | FileExtension.QASM => InputType.QASM
  | FileExtension.MLIR => InputType.MLIR
  | FileExtension.Bytecode => InputType.Bytecode
  | _ => InputType.Undetected

/-- Modelled from the spec: the implementation of `fileExtensionToAction`
(declared in QEConfig.h line 74, body not available). Maps an extension to
the corresponding output kind; extensions with no associated output kind
(no extension, or a source-language extension) are `Undetected`. -/
def fileExtensionToAction (inExt : FileExtension) : EmitAction :=
  match inExt with
  | FileExtension.AST => EmitAction.AST
  | FileExtension.ASTPretty => EmitAction.ASTPretty
  | FileExtension.MLIR => EmitAction.MLIR
  | FileExtension.Bytecode => EmitAction.Bytecode
  | FileExtension.WaveMem => EmitAction.WaveMem
  | FileExtension.QEM => EmitAction.QEM
  | FileExtension.QEQEM => EmitAction.QEQEM
  | _ => EmitAction.Undetected

/-- `QEConfigCLOptions::computeInputType` (CLIConfig.cpp lines 478-495).
The receiver object is the CLI option state (a `QEConfig`); mutation of it
becomes state passing, the `llvm::Error` return becomes `Except String`.
`shouldEmitBytecode()` reads the inherited `emitBytecodeFlag`. -/
def computeInputType (config : qec.config.QEConfig) (inputFilename : String) :
    Except String QEConfig :=
  if config.inputType = InputType.Undetected then
    let config :=
      if config.emitBytecodeFlag then { config with inputType := InputType.Bytecode }
      else { config with inputType := fileExtensionToInputType (getExtension inputFilename) }
    if inputFilename ≠ "-" ∧ config.inputType = InputType.Undetected then
      Except.error
        "Unable to autodetect file extension type! Please specify the input type with -X"
    else
      Except.ok config
  else
    Except.ok config

/-- `QEConfigCLOptions::computeOutputType` (CLIConfig.cpp lines 497-520).
Writes to `llvm::errs()` become the returned list of warning strings; the
function returns `llvm::Error::success()` on every path, so every branch
here is `Except.ok`. -/
def computeOutputType (config : qec.config.QEConfig) (outputFilename : String) :
    Except String (QEConfig × List String) :=
  if outputFilename ≠ "-" then
    let extensionAction := fileExtensionToAction (getExtension outputFilename)
    if extensionAction = EmitAction.Undetected ∧ config.emitAction = EmitAction.Undetected then
      Except.ok ({ config with emitAction := EmitAction.MLIR },
        ["Cannot determine the file extension of the specified output file " ++
          outputFilename ++ " defaulting to dumping MLIR\n"])
    else if config.emitAction = EmitAction.Undetected then
      Except.ok ({ config with emitAction := extensionAction }, [])
    else if extensionAction ≠ config.emitAction then
      Except.ok (config,
        ["Warning! The output type in the file extension doesn't match the output type specified by --emit!\n"])
    else
      Except.ok (config, [])
  else
    if config.emitAction = EmitAction.Undetected then
      Except.ok ({ config with emitAction := EmitAction.MLIR }, [])
    else
      Except.ok (config, [])

/-- The environment variables read by `EnvVarConfigBuilder`
(EnvVarConfig.cpp): `getenv` becomes an explicit record, one optional
string per variable. -/
structure EnvState where
  qecTargetConfigPath : Option String
  qecTargetName : Option String
  qecVerbosity : Option String
  qecMaxThreads : Option String
deriving DecidableEq

/-- The value of a character as a digit, as in LLVM's
`consumeUnsignedInteger` (0-9, then letters as 10-35); `none` stops the
digit scan. -/
def charHexVal (c : Char) : Option Nat :=
  if '0' ≤ c ∧ c ≤ '9' then some (c.toNat - '0'.toNat)
  else if 'a' ≤ c ∧ c ≤ 'z' then some (c.toNat - 'a'.toNat + 10)
  else if 'A' ≤ c ∧ c ≤ 'Z' then some (c.toNat - 'A'.toNat + 10)
  else none

/-- LLVM's `GetAutoSenseRadix` (StringExtras.cpp): detect a radix prefix,
returning the radix and the string with the prefix stripped. -/
def getAutoSenseRadix : List Char → Nat × List Char
  | [] => (10, [])
  | [c] => (10, [c])
  | c0 :: c1 :: rest =>
    if c0 = '0' ∧ (c1 = 'x' ∨ c1 = 'X') then (16, rest)
    else if c0 = '0' ∧ (c1 = 'b' ∨ c1 = 'B') then (2, rest)
    else if c0 = '0' ∧ c1 = 'o' then (8, rest)
    else if c0 = '0' ∧ c1.isDigit then (8, c1 :: rest)
    else (10, c0 :: c1 :: rest)

/-- The digit-consumption loop of LLVM's `consumeUnsignedInteger`: consume
characters as long as they are valid digits below the radix, accumulating
the value (exactly, in `Nat`; the C++ overflow check is applied afterwards
by the caller), and return the value together with the unconsumed rest. -/
def consumeDigits (radix : Nat) : List Char → Nat → Nat × List Char
  | [], acc => (acc, [])
  | c :: rest, acc =>
    match charHexVal c with
    | none => (acc, c :: rest)
    | some v =>
      if v < radix then consumeDigits radix rest (acc * radix + v)
      else (acc, c :: rest)

/-- `EnvVarConfigBuilder::populateConfigurationPath_`
(EnvVarConfig.cpp lines 42-46). -/
def EnvVarConfigBuilder.populateConfigurationPath (env : EnvState) (config : QEConfig) :
    Except String QEConfig :=
  Except.ok
    (match env.qecTargetConfigPath with
     | some configurationPath => { config with targetConfigPath := some configurationPath }
     | none => config)

/-- `EnvVarConfigBuilder::populateTarget_` (EnvVarConfig.cpp lines 48-52). -/
def EnvVarConfigBuilder.populateTarget (env : EnvState) (config : QEConfig) :
    Except String QEConfig :=
  Except.ok
    (match env.qecTargetName with
     | some targetStr => { config with targetName := some targetStr }
     | none => config)

/-- `EnvVarConfigBuilder::populateMaxThreads_` (EnvVarConfig.cpp lines
54-67). `maxThreadsStr.consumeInteger<unsigned int>(0, ...)` is embedded
step by step: radix autosensing, greedy digit consumption (failing when no
digit was consumed), the `unsigned long long` overflow check and the final
fits-in-`unsigned int` check; the error message quotes the string in the
state `consumeInteger` left it in. -/
def EnvVarConfigBuilder.populateMaxThreads (env : EnvState) (config : QEConfig) :
    Except String QEConfig :=
  match env.qecMaxThreads with
  | none => Except.ok config
  | some maxThreads =>
    let p := getAutoSenseRadix maxThreads.toList
    let q := consumeDigits p.1 p.2 0
    if q.2.length = p.2.length then
      Except.error ("Unable to parse maximum threads from \"" ++ String.mk p.2 ++ "\"\n")
    else if q.1 ≥ 2 ^ 64 then
      Except.error ("Unable to parse maximum threads from \"" ++ String.mk p.2 ++ "\"\n")
    else if q.1 ≥ 2 ^ 32 then
      Except.error ("Unable to parse maximum threads from \"" ++ String.mk q.2 ++ "\"\n")
    else
      Except.ok { config with maxThreads := some q.1 }

/-- `EnvVarConfigBuilder::populateVerbosity_` (EnvVarConfig.cpp lines
69-88): exact string comparison against the four tokens, a descriptive
error for anything else. -/
def EnvVarConfigBuilder.populateVerbosity (env : EnvState) (config : QEConfig) :
    Except String QEConfig :=
  match env.qecVerbosity with
  | none => Except.ok config
  | some verbosity =>
    if verbosity = "ERROR" then Except.ok { config with verbosityLevel := QEVerbosity.Error }
    else if verbosity = "WARN" then Except.ok { config with verbosityLevel := QEVerbosity.Warn }
    else if verbosity = "INFO" then Except.ok { config with verbosityLevel := QEVerbosity.Info }
    else if verbosity = "DEBUG" then Except.ok { config with verbosityLevel := QEVerbosity.Debug }
    else
      Except.error ("QEC_VERBOSITY level unrecognized got (" ++ verbosity ++
        "), options are ERROR, WARN, INFO, or DEBUG\n")

/-- `EnvVarConfigBuilder::populateConfig` (EnvVarConfig.cpp lines 26-40):
the four populate steps in order, aborting at the first error (the C++
`if (auto err = ...) return err;` chain). -/
def EnvVarConfigBuilder.populateConfig (env : EnvState) (config : QEConfig) :
    Except String QEConfig :=
  Except.bind (EnvVarConfigBuilder.populateConfigurationPath env config) fun config =>
  Except.bind (EnvVarConfigBuilder.populateTarget env config) fun config =>
  Except.bind (EnvVarConfigBuilder.populateVerbosity env config) fun config =>
  Except.bind (EnvVarConfigBuilder.populateMaxThreads env config) fun config =>
  Except.ok config

/-- Specification-side helper: the verbosity level a token denotes, `none`
for a token outside the closed vocabulary. Used only to state theorems. -/
def verbosityToken? (s : String) : Option QEVerbosity :=
  if s = "ERROR" then some QEVerbosity.Error
  else if s = "WARN" then some QEVerbosity.Warn
  else if s = "INFO" then some QEVerbosity.Info
  else if s = "DEBUG" then some QEVerbosity.Debug
  else none

/-- Specification-side helper: the value `consumeInteger<unsigned int>`
with radix 0 accepts for a string, `none` when it fails. Used only to
state theorems. -/
def llvmParseUInt? (s : String) : Option Nat :=
  let p := getAutoSenseRadix s.toList
  let q := consumeDigits p.1 p.2 0
  if q.2.length = p.2.length then none
  else if q.1 ≥ 2 ^ 32 then none
  else some q.1

/-- The state of the singleton `QEConfigCLOptions` (CLIConfig.cpp lines
208-463) before any CLI flag is parsed: every `llvm::cl::opt` holds its
`init` value (which for the external-storage options matches the
`QEConfig` member initializer), the `-verbosity` option is initialized to
the `_VerbosityCnt` sentinel, and the string/list options with callbacks
(`-target`, `-config`, `-load-pass-plugin`, `-load-dialect-plugin`,
`-max-threads`) have fired no callback. A parsed command line is any
`QEConfig` value reachable from this state by option callbacks/storage
writes; theorems quantify over the resulting state. -/
def QEConfigCLOptionsInit : QEConfig :=
  { defaultQEConfig with verbosityLevel := QEVerbosity.VerbosityCnt }

/-- `CLIConfigBuilder::populateConfig(QEConfig &)` (CLIConfig.cpp lines
542-593). `clOptions` is the state of the `clOptionsConfig` singleton
after command-line parsing; the field-by-field copies of the source are
reproduced in order. The debug-config / pass-pipeline-callback copies
carry opaque collaborator state and are not modelled. The function has no
failure branch and ends in `return llvm::Error::success()`. -/
def CLIConfigBuilder.populateConfig (clOptions : QEConfig) (config₀ : QEConfig) :
    Except String QEConfig :=
  let config := config₀
  let config :=
    if clOptions.verbosityLevel ≠ QEVerbosity.VerbosityCnt then
      { config with verbosityLevel := clOptions.verbosityLevel }
    else config
  let config :=
    if clOptions.targetName.isSome then { config with targetName := clOptions.targetName }
    else config
  let config :=
    if clOptions.targetConfigPath.isSome then
      { config with targetConfigPath := clOptions.targetConfigPath }
    else config
  let config :=
    { config with
      addTargetPassesFlag := clOptions.addTargetPassesFlag
      showTargetsFlag := clOptions.showTargetsFlag
      showPayloadsFlag := clOptions.showPayloadsFlag
      showConfigFlag := clOptions.showConfigFlag
      emitPlaintextPayloadFlag := clOptions.emitPlaintextPayloadFlag
      includeSourceFlag := clOptions.includeSourceFlag
      compileTargetIRFlag := clOptions.compileTargetIRFlag
      bypassPayloadTargetCompilationFlag := clOptions.bypassPayloadTargetCompilationFlag
      passPlugins := config.passPlugins ++ clOptions.passPlugins
      dialectPlugins := config.dialectPlugins ++ clOptions.dialectPlugins }
  let config :=
    if clOptions.maxThreads.isSome then { config with maxThreads := clOptions.maxThreads }
    else config
  let config :=
    { config with
      allowUnregisteredDialectsFlag := clOptions.allowUnregisteredDialectsFlag
      dumpPassPipelineFlag := clOptions.dumpPassPipelineFlag }
  let config :=
    if clOptions.emitBytecodeVersion.isSome then
      { config with emitBytecodeVersion := clOptions.emitBytecodeVersion }
    else config
  let config :=
    { config with
      irdlFileFlag := clOptions.irdlFileFlag
      enableDebuggerActionHookFlag := clOptions.enableDebuggerActionHookFlag
      useExplicitModuleFlag := clOptions.useExplicitModuleFlag
      runReproducerFlag := clOptions.runReproducerFlag
      showDialectsFlag := clOptions.showDialectsFlag
      verifyDiagnosticsFlag := clOptions.verifyDiagnosticsFlag
      verifyPassesFlag := clOptions.verifyPassesFlag
      verifyRoundtripFlag := clOptions.verifyRoundtripFlag
      splitInputFileFlag := clOptions.splitInputFileFlag }
  Except.ok config

/-- The documented builder pipeline (QEConfig.h lines 283-298 and
`buildToolConfig`): defaults, then the environment stage, then the
command-line stage. -/
def buildToolConfigStages (env : EnvState) (clOptions : QEConfig) :
    Except String QEConfig :=
  Except.bind (EnvVarConfigBuilder.populateConfig env defaultQEConfig) fun config =>
  Except.bind (CLIConfigBuilder.populateConfig clOptions config) fun config =>
  Except.ok config

end config

/-- `enum class Severity` (API/errors.h, mirrored by lib_enums.cpp). -/
inductive Severity where
  | Info
  | Warning
  | Error
  | Fatal
deriving DecidableEq

/-- `enum class ErrorCategory` (API/errors.h, mirrored by lib_enums.cpp). -/
inductive ErrorCategory where
  | OpenQASM3ParseFailure
  | QECompilerError
  | QECompilerNoInputError
  | QECompilerCommunicationFailure
  | QECompilerEOFFailure
  | QECompilerNonZeroStatus
  | QECompilerSequenceTooLong
  | QECompilationFailure
  | QELinkerNotImplemented
  | QELinkSignatureWarning
  | QELinkSignatureError
  | QELinkAddressError
  | QELinkSignatureNotFound
  | QELinkArgumentNotFoundWarning
  | QELinkInvalidPatchTypeError
  | QEControlSystemResourcesExceeded
  | UncategorizedError
deriving DecidableEq

/-- `getErrorCategoryAsString` (errors.cpp lines 34-90). -/
def getErrorCategoryAsString (category : ErrorCategory) : String :=
  match category with
  | ErrorCategory.OpenQASM3ParseFailure => "OpenQASM 3 parse error"
  | ErrorCategory.QECompilerError => "Unknown compiler error"
  | ErrorCategory.QECompilerNoInputError => "Error when no input file or string is provided"
  | ErrorCategory.QECompilerCommunicationFailure => "Error on compilation communication failure"
  | ErrorCategory.QECompilerEOFFailure => "EOF Error"
  | ErrorCategory.QECompilerNonZeroStatus => "Errored because non-zero status is returned"
  | ErrorCategory.QECompilerSequenceTooLong => "Input sequence is too long"
  | ErrorCategory.QECompilationFailure => "Failure during compilation"
  | ErrorCategory.QELinkerNotImplemented => "BindArguments not implemented for target"
  | ErrorCategory.QELinkSignatureWarning => "Signature file format is invalid but may be processed"
  | ErrorCategory.QELinkSignatureError => "Signature file format is invalid"
  | ErrorCategory.QELinkAddressError => "Signature address is invalid"
  | ErrorCategory.QELinkSignatureNotFound => "Signature file not found"
  | ErrorCategory.QELinkArgumentNotFoundWarning => "Parameter in signature not found in arguments"
  | ErrorCategory.QELinkInvalidPatchTypeError => "Invalid patch point type"
  | ErrorCategory.QEControlSystemResourcesExceeded => "Control system resources exceeded"
  | ErrorCategory.UncategorizedError => "Compilation failure"

/-- `getSeverityAsString` (errors.cpp lines 92-105). -/
def getSeverityAsString (sev : Severity) : String :=
  match sev with
  | Severity.Info => "Info"
  | Severity.Warning => "Warning"
  | Severity.Error => "Error"
  | Severity.Fatal => "Fatal"

/-- `struct Diagnostic` (API/errors.h): severity, category and free-text
message, immutable once constructed. -/
structure Diagnostic where
  severity : Severity
  category : ErrorCategory
  message : String
deriving DecidableEq

/-- `Diagnostic::toString` (errors.cpp lines 111-120). -/
def Diagnostic.toString (d : Diagnostic) : String :=
  getSeverityAsString d.severity ++ ": " ++ getErrorCategoryAsString d.category ++ "\n"
    ++ d.message

/-- The failure result built by `llvm::createStringError(ec, msg)`: the
OS-level error code together with the formatted message. -/
structure StringError where
  ec : Int
  message : String
deriving DecidableEq

/-- `emitDiagnostic` (errors.cpp lines 122-129). The optional callback is
an arbitrary state transformer over a caller-owned state `σ`; invoking it
synchronously before returning is modelled by threading `σ` through:
the returned state is the callback applied to the diagnostic (when a
callback is present), and the function's value is always the failure
result wrapping the error code and `diag.toString`. -/
def emitDiagnostic {σ : Type} (onDiagnostic : Option (Diagnostic → σ → σ))
    (diag : Diagnostic) (ec : Int) (s : σ) : σ × StringError :=
  let s' :=
    match onDiagnostic with
    | some diagnosticCallback => diagnosticCallback diag s
    | none => s
  (s', { ec := ec, message := diag.toString })

/-- The convenience overload of `emitDiagnostic` (errors.cpp lines
131-136): builds the `Diagnostic` from severity, category and message and
forwards. -/
def emitDiagnosticParts {σ : Type} (onDiagnostic : Option (Diagnostic → σ → σ))
    (severity : Severity) (category : ErrorCategory) (message : String) (ec : Int)
    (s : σ) : σ × StringError :=
  emitDiagnostic onDiagnostic { severity := severity, category := category, message := message }
    ec s

namespace hal

/-- Modelled from the spec: the hidden `TargetSystemInfo::Impl` state
(TargetSystemInfo.cpp is not available; TargetSystemInfo.h lines 392-402
document the semantics). A table binding an owning context identity — or
the reserved `none` (`nullptr`) sentinel — to at most one target-system
instance. Contexts and instances are opaque identities (`Nat`). -/
structure TargetSystemInfoState where
  bindings : List (Option Nat × Nat)
deriving DecidableEq

/-- The exact-match lookup in the per-descriptor context store. -/
def lookupBinding (st : TargetSystemInfoState) (context : Option Nat) : Option Nat :=
  (st.bindings.find? (fun b => b.1 = context)).map (fun b => b.2)

/-- Modelled from the spec: `TargetSystemInfo::getTarget`
(TargetSystemInfo.h lines 397-402): "First checks for a target registered
exactly for the given context. If no such context is found, checks if a
target is registered under nullptr, and returns that. If no target is
found, an error is returned." -/
def getTarget (st : TargetSystemInfoState) (context : Option Nat) : Except String Nat :=
  match lookupBinding st context with
  | some target => Except.ok target
  | none =>
    match lookupBinding st none with
    | some target => Except.ok target
    | none => Except.error "Could not find a target registered for this context"

/-- Modelled from the spec: `TargetSystemInfo::createTarget`
(TargetSystemInfo.h lines 392-395): invoke the descriptor's factory, and
on success bind the new instance under the given context, replacing any
prior binding for that context (last-write-wins). The factory's outcome is
passed in as an `Except` value. -/
def createTarget (st : TargetSystemInfoState) (context : Option Nat)
    (factoryResult : Except String Nat) : Except String (TargetSystemInfoState × Nat) :=
  match factoryResult with
  | Except.error e => Except.error e
  | Except.ok newTarget =>
    Except.ok
      ({ bindings := (context, newTarget) :: st.bindings.filter (fun b => ¬b.1 = context) },
        newTarget)

end hal

/-- `_getResourcesDir` (QEC.cpp lines 139-148): the `QEC_RESOURCES`
environment variable when set, else the compiled-in
`QEC_RESOURCES_INSTALL_PREFIX` (passed here as an explicit parameter). -/
def getResourcesDir (qecResourcesEnv : Option String) (installRoot : String) : String :=
  match qecResourcesEnv with
  | some env => env
  | none => installRoot

/-- Whether `suf` is a suffix of `s`, computed on the character lists (the
kernel-reducible counterpart of `String.endsWith`). -/
def strEndsWith (s suf : String) : Bool :=
  suf.toList.isSuffixOf s.toList

/-- Whether `pre` is a prefix of `s`, computed on the character lists (the
kernel-reducible counterpart of `String.startsWith`). -/
def strStartsWith (s pre : String) : Bool :=
  pre.toList.isPrefixOf s.toList

/-- One step of `llvm::sys::path::append` on POSIX: add a separator unless
the path is empty or already ends with one or the component starts with
one, then append the component. -/
def pathAppendOne (path component : String) : String :=
  if path = "" ∨ strEndsWith path "/" ∨ strStartsWith component "/" then path ++ component
  else path ++ "/" ++ component

/-- `getTargetResourcesDir` (QEC.cpp lines 157-165): start from the
resources root and append the fixed component "targets" followed by the
target's resource-path name. -/
def getTargetResourcesDir (qecResourcesEnv : Option String) (installRoot : String)
    (targetResourcePath : String) : String :=
  pathAppendOne (pathAppendOne (getResourcesDir qecResourcesEnv installRoot) "targets")
    targetResourcePath

end qec

open qec qec.config qec.hal

/-- C9: `QEConfig::setPassPlugins` stores its argument into the same
underlying field as `setDialectPlugins` (the `dialectPlugins` list): after
`setPassPlugins l`, both `getPassPlugins` and `getDialectPlugins` return
`l`, the separate `passPlugins` member is unchanged, and the two setters
produce identical configurations. -/
theorem setPassPlugins_aliases_dialectPlugins (config : QEConfig) (l : List String) :
    (config.setPassPlugins l).getPassPlugins = l ∧
    (config.setPassPlugins l).getDialectPlugins = l ∧
    (config.setPassPlugins l).passPlugins = config.passPlugins ∧
    config.setPassPlugins l = config.setDialectPlugins l :=
  ⟨rfl, rfl, rfl, rfl⟩

/-- C10: the `-max-threads` CLI callback updates `maxThreads` only for a
strictly positive parsed integer; zero or a negative value leaves the
configuration entirely unchanged and raises no error. -/
theorem maxThreadsCallback_positive_only (v : Int) (config : QEConfig) :
    (v > 0 → (maxThreadsCallback v config).maxThreads = some v.toNat) ∧
    (v ≤ 0 → maxThreadsCallback v config = config) := by
  constructor
  · intro h
    rw [maxThreadsCallback, if_pos h]
  · intro h
    rw [maxThreadsCallback, if_neg (by omega)]

/-- Witness for C10 at `v = 3` and `v = 0`. -/
theorem maxThreadsCallback_positive_only_witness :
    (maxThreadsCallback 3 defaultQEConfig).maxThreads = some 3 ∧
    maxThreadsCallback 0 defaultQEConfig = defaultQEConfig :=
  ⟨(maxThreadsCallback_positive_only 3 defaultQEConfig).1 (by decide),
   (maxThreadsCallback_positive_only 0 defaultQEConfig).2 (by decide)⟩

/-- C5: `emitDiagnostic` always returns the failure result wrapping the
supplied error code and the deterministically formatted message
`"<Severity>: <category description>\n<message>"`; when a callback is
present it is applied to the diagnostic (and to nothing else) before the
function returns, and when absent the caller's state is untouched; the
convenience overload builds the same diagnostic from its parts. -/
theorem emitDiagnostic_reports_and_fails {σ : Type} (onDiagnostic : Option (Diagnostic → σ → σ))
    (diag : Diagnostic) (ec : Int) (s : σ) :
    (emitDiagnostic onDiagnostic diag ec s).2 =
      { ec := ec
        message := getSeverityAsString diag.severity ++ ": " ++
          getErrorCategoryAsString diag.category ++ "\n" ++ diag.message } ∧
    (∀ f, onDiagnostic = some f → (emitDiagnostic onDiagnostic diag ec s).1 = f diag s) ∧
    (onDiagnostic = none → (emitDiagnostic onDiagnostic diag ec s).1 = s) ∧
    emitDiagnosticParts onDiagnostic diag.severity diag.category diag.message ec s =
      emitDiagnostic onDiagnostic diag ec s := by
  refine ⟨rfl, ?_, ?_, rfl⟩
  · intro f hf
    subst hf
    rfl
  · intro hf
    subst hf
    rfl

/-- Witness for C5: a concrete diagnostic recorded by a list-collecting
callback, with the formatted failure result returned alongside. -/
theorem emitDiagnostic_reports_and_fails_witness :
    (emitDiagnostic (some fun d l => d :: l)
        ⟨Severity.Error, ErrorCategory.QECompilationFailure, "boom"⟩ 5
        ([] : List Diagnostic)).2 =
      { ec := 5, message := "Error: Failure during compilation\nboom" } ∧
    (emitDiagnostic (some fun d l => d :: l)
        ⟨Severity.Error, ErrorCategory.QECompilationFailure, "boom"⟩ 5
        ([] : List Diagnostic)).1 =
      [⟨Severity.Error, ErrorCategory.QECompilationFailure, "boom"⟩] := by
  have h := emitDiagnostic_reports_and_fails (σ := List Diagnostic) (some fun d l => d :: l)
    ⟨Severity.Error, ErrorCategory.QECompilationFailure, "boom"⟩ 5 []
  exact ⟨h.1.trans (by decide), h.2.1 _ rfl⟩

/-- C6: context-scoped target lookup — an exact binding wins, otherwise
the `nullptr`-sentinel binding is returned, otherwise lookup fails with a
not-found error; and a successful `createTarget` binds exactly the
instance the factory produced, so an immediately following `getTarget`
for the same context returns it (replacing any previous binding for that
context). -/
theorem targetSystemInfo_lookup_spec (st : TargetSystemInfoState) (context : Option Nat) :
    (∀ t, lookupBinding st context = some t → getTarget st context = Except.ok t) ∧
    (lookupBinding st context = none → ∀ t, lookupBinding st none = some t →
      getTarget st context = Except.ok t) ∧
    (lookupBinding st context = none → lookupBinding st none = none →
      getTarget st context =
        Except.error "Could not find a target registered for this context") ∧
    (∀ inst st' result, createTarget st context (Except.ok inst) = Except.ok (st', result) →
      result = inst ∧ getTarget st' context = Except.ok inst) := by
  refine ⟨?_, ?_, ?_, ?_⟩
  · intro t h
    rw [getTarget, h]
  · intro h t h'
    rw [getTarget, h, h']
  · intro h h'
    rw [getTarget, h, h']
  · intro inst st' result h
    rw [createTarget, Except.ok.injEq, Prod.mk.injEq] at h
    obtain ⟨hst, hres⟩ := h
    subst hst
    refine ⟨hres.symm, ?_⟩
    rw [getTarget]
    have hfind : lookupBinding
        { bindings := (context, inst) :: st.bindings.filter (fun b => ¬b.1 = context) }
        context = some inst := by
      rw [lookupBinding, List.find?]
      simp
    rw [hfind]

/-- Witness for C6: a store with only a sentinel binding serves an unbound
context; an empty store fails; after a create, the exact binding is
returned. -/
theorem targetSystemInfo_lookup_spec_witness :
    getTarget ⟨[(none, 7)]⟩ (some 1) = Except.ok 7 ∧
    getTarget ⟨[]⟩ (some 1) =
      Except.error "Could not find a target registered for this context" ∧
    getTarget ⟨[((some 1 : Option Nat), 9)]⟩ (some 1) = Except.ok 9 := by
  refine ⟨(targetSystemInfo_lookup_spec ⟨[(none, 7)]⟩ (some 1)).2.1 (by decide) 7 (by decide),
    (targetSystemInfo_lookup_spec ⟨[]⟩ (some 1)).2.2.1 (by decide) (by decide),
    ((targetSystemInfo_lookup_spec ⟨[]⟩ (some 1)).2.2.2 9 ⟨[((some 1 : Option Nat), 9)]⟩ 9
      (by decide)).2⟩

/-- C2: input-kind resolution — an explicitly set input kind is kept;
otherwise a requested bytecode emission forces `Bytecode`; otherwise the
kind is derived from the filename extension; and when the filename is not
the stdin sentinel `"-"` and nothing could be derived, the function fails
with the cannot-autodetect error, in every other case it succeeds. -/
theorem computeInputType_resolution (config : QEConfig) (inputFilename : String) :
    (config.inputType ≠ InputType.Undetected →
      computeInputType config inputFilename = Except.ok config) ∧
    (config.inputType = InputType.Undetected → config.emitBytecodeFlag = true →
      computeInputType config inputFilename =
        Except.ok { config with inputType := InputType.Bytecode }) ∧
    (config.inputType = InputType.Undetected → config.emitBytecodeFlag = false →
      fileExtensionToInputType (getExtension inputFilename) ≠ InputType.Undetected →
      computeInputType config inputFilename =
        Except.ok { config with
          inputType := fileExtensionToInputType (getExtension inputFilename) }) ∧
    (config.inputType = InputType.Undetected → config.emitBytecodeFlag = false →
      fileExtensionToInputType (getExtension inputFilename) = InputType.Undetected →
      inputFilename ≠ "-" →
      computeInputType config inputFilename = Except.error
        "Unable to autodetect file extension type! Please specify the input type with -X") ∧
    (config.inputType = InputType.Undetected → config.emitBytecodeFlag = false →
      fileExtensionToInputType (getExtension inputFilename) = InputType.Undetected →
      inputFilename = "-" →
      computeInputType config inputFilename = Except.ok config) := by
  refine ⟨?_, ?_, ?_, ?_, ?_⟩
  · intro hset
    rw [computeInputType, if_neg hset]
  · intro hU hB
    simp [computeInputType, hU, hB]
  · intro hU hB hD
    simp [computeInputType, hU, hB, hD]
  · intro hU hB hD hne
    simp [computeInputType, hU, hB, hD, hne]
  · intro hU hB hD heq
    rw [heq] at hD
    simp [computeInputType, hU, hB, heq]
    rw [hD, ← hU, ← hB]

/-- Witness for C2 on the spec's concrete examples. -/
theorem computeInputType_resolution_witness :
    computeInputType defaultQEConfig "prog.qasm" =
      Except.ok { defaultQEConfig with inputType := InputType.QASM } ∧
    computeInputType defaultQEConfig "prog.xyz" = Except.error
      "Unable to autodetect file extension type! Please specify the input type with -X" ∧
    computeInputType defaultQEConfig "-" = Except.ok defaultQEConfig ∧
    computeInputType { defaultQEConfig with emitBytecodeFlag := true } "prog.xyz" =
      Except.ok { { defaultQEConfig with emitBytecodeFlag := true } with
        inputType := InputType.Bytecode } ∧
    computeInputType { defaultQEConfig with inputType := InputType.MLIR } "prog.qasm" =
      Except.ok { defaultQEConfig with inputType := InputType.MLIR } := by
  refine ⟨?_, ?_, ?_, ?_, ?_⟩
  · exact ((computeInputType_resolution defaultQEConfig "prog.qasm").2.2.1 rfl rfl
      (by decide)).trans (by decide)
  · exact (computeInputType_resolution defaultQEConfig "prog.xyz").2.2.2.1 rfl rfl
      (by decide) (by decide)
  · exact (computeInputType_resolution defaultQEConfig "-").2.2.2.2 rfl rfl (by decide) rfl
  · exact ((computeInputType_resolution { defaultQEConfig with emitBytecodeFlag := true }
      "prog.xyz").2.1 rfl rfl).trans (by decide)
  · exact (computeInputType_resolution { defaultQEConfig with inputType := InputType.MLIR }
      "prog.qasm").1 (by decide)

/-- C3: output-action resolution — for the sentinel filename `"-"` the
action defaults to textual MLIR unless already set; otherwise the action
is derived from the extension; an unrecognized extension with no explicit
action defaults to MLIR with a non-fatal warning; an explicit action that
disagrees with the extension-derived one is kept and a non-fatal mismatch
warning is emitted; and in every case the function succeeds. -/
theorem computeOutputType_resolution (config : QEConfig) (outputFilename : String) :
    (outputFilename = "-" → config.emitAction = EmitAction.Undetected →
      computeOutputType config outputFilename =
        Except.ok ({ config with emitAction := EmitAction.MLIR }, [])) ∧
    (outputFilename = "-" → config.emitAction ≠ EmitAction.Undetected →
      computeOutputType config outputFilename = Except.ok (config, [])) ∧
    (outputFilename ≠ "-" →
      fileExtensionToAction (getExtension outputFilename) = EmitAction.Undetected →
      config.emitAction = EmitAction.Undetected →
      computeOutputType config outputFilename =
        Except.ok ({ config with emitAction := EmitAction.MLIR },
          ["Cannot determine the file extension of the specified output file " ++
            outputFilename ++ " defaulting to dumping MLIR\n"])) ∧
    (outputFilename ≠ "-" →
      fileExtensionToAction (getExtension outputFilename) ≠ EmitAction.Undetected →
      config.emitAction = EmitAction.Undetected →
      computeOutputType config outputFilename =
        Except.ok ({ config with
          emitAction := fileExtensionToAction (getExtension outputFilename) }, [])) ∧
    (outputFilename ≠ "-" → config.emitAction ≠ EmitAction.Undetected →
      fileExtensionToAction (getExtension outputFilename) ≠ config.emitAction →
      computeOutputType config outputFilename = Except.ok (config,
        ["Warning! The output type in the file extension doesn't match the output type specified by --emit!\n"])) ∧
    (outputFilename ≠ "-" → config.emitAction ≠ EmitAction.Undetected →
      fileExtensionToAction (getExtension outputFilename) = config.emitAction →
      computeOutputType config outputFilename = Except.ok (config, [])) := by
  refine ⟨?_, ?_, ?_, ?_, ?_, ?_⟩
  · intro hs hU
    simp [computeOutputType, hs, hU]
  · intro hs hset
    simp [computeOutputType, hs, hset]
  · intro hs hext hU
    simp [computeOutputType, hs, hext, hU]
  · intro hs hext hU
    simp [computeOutputType, hs, hext, hU]
  · intro hs hset hne
    simp [computeOutputType, hs, hset, hne]
  · intro hs hset heq
    simp [computeOutputType, hs, hset, heq]

/-- Witness for C3 on the spec's concrete examples. -/
theorem computeOutputType_resolution_witness :
    computeOutputType defaultQEConfig "-" =
      Except.ok ({ defaultQEConfig with emitAction := EmitAction.MLIR }, []) ∧
    computeOutputType defaultQEConfig "out.qem" =
      Except.ok ({ defaultQEConfig with emitAction := EmitAction.QEM }, []) ∧
    computeOutputType defaultQEConfig "out.bla" =
      Except.ok ({ defaultQEConfig with emitAction := EmitAction.MLIR },
        ["Cannot determine the file extension of the specified output file out.bla defaulting to dumping MLIR\n"]) ∧
    computeOutputType { defaultQEConfig with emitAction := EmitAction.QEM } "out.mlir" =
      Except.ok ({ defaultQEConfig with emitAction := EmitAction.QEM },
        ["Warning! The output type in the file extension doesn't match the output type specified by --emit!\n"]) := by
  refine ⟨?_, ?_, ?_, ?_⟩
  · exact (computeOutputType_resolution defaultQEConfig "-").1 rfl rfl
  · exact ((computeOutputType_resolution defaultQEConfig "out.qem").2.2.2.1 (by decide)
      (by decide) rfl).trans (by decide)
  · exact ((computeOutputType_resolution defaultQEConfig "out.bla").2.2.1 (by decide)
      (by decide) rfl).trans (by decide)
  · exact (computeOutputType_resolution { defaultQEConfig with emitAction := EmitAction.QEM }
      "out.mlir").2.2.2.2.1 (by decide) (by decide) (by decide)

/-- C8: `computeOutputType` succeeds for every output filename — it has no
failure branch — and the resulting configuration's emit action is never
`Undetected`. -/
theorem computeOutputType_total_never_undetected (config : QEConfig) (outputFilename : String) :
    ∃ cfg warnings, computeOutputType config outputFilename = Except.ok (cfg, warnings) ∧
      cfg.emitAction ≠ EmitAction.Undetected := by
  unfold computeOutputType
  by_cases h : outputFilename ≠ "-"
  · rw [if_pos h]
    by_cases h1 : fileExtensionToAction (getExtension outputFilename) = EmitAction.Undetected ∧
        config.emitAction = EmitAction.Undetected
    · rw [if_pos h1]
      exact ⟨_, _, rfl, fun hx => EmitAction.noConfusion hx⟩
    · rw [if_neg h1]
      by_cases h2 : config.emitAction = EmitAction.Undetected
      · rw [if_pos h2]
        refine ⟨_, _, rfl, fun hext => h1 ⟨hext, h2⟩⟩
      · rw [if_neg h2]
        by_cases h3 : fileExtensionToAction (getExtension outputFilename) ≠ config.emitAction
        · rw [if_pos h3]
          exact ⟨_, _, rfl, h2⟩
        · rw [if_neg h3]
          exact ⟨_, _, rfl, h2⟩
  · rw [if_neg h]
    by_cases h2 : config.emitAction = EmitAction.Undetected
    · rw [if_pos h2]
      exact ⟨_, _, rfl, fun hx => EmitAction.noConfusion hx⟩
    · rw [if_neg h2]
      exact ⟨_, _, rfl, h2⟩

/-- Helper: `pathAppendOne` inserts exactly one separator when the path is
nonempty, does not already end with one, and the component does not start
with one. -/
theorem pathAppendOne_sep (path component : String) (h0 : path ≠ "")
    (h1 : strEndsWith path "/" = false) (h2 : strStartsWith component "/" = false) :
    pathAppendOne path component = path ++ "/" ++ component := by
  rw [pathAppendOne, if_neg]
  simp [h0, h1, h2]

/-- Helper: appending the "/targets" components leaves a nonempty path. -/
theorem targetsPath_ne_empty (a : String) : a ++ "/" ++ "targets" ≠ "" := by
  intro h
  have hd : (a ++ "/" ++ "targets").data = ("" : String).data := by rw [h]
  rw [String.data_append, String.data_append,
    show ("/" : String).data = ['/'] from rfl,
    show ("targets" : String).data = ['t', 'a', 'r', 'g', 'e', 't', 's'] from rfl,
    show ("" : String).data = [] from rfl, List.append_assoc] at hd
  simp at hd

/-- Helper: a path ending in the "targets" component does not end with a
separator. -/
theorem strEndsWith_slash_targets (a : String) :
    strEndsWith (a ++ "/" ++ "targets") "/" = false := by
  rw [strEndsWith, List.isSuffixOf]
  rw [show (a ++ "/" ++ "targets").toList = (a ++ "/" ++ "targets").data from rfl]
  rw [String.data_append, String.data_append,
    show ("/" : String).data = ['/'] from rfl,
    show ("targets" : String).data = ['t', 'a', 'r', 'g', 'e', 't', 's'] from rfl,
    List.append_assoc]
  rw [show (['/'] ++ ['t', 'a', 'r', 'g', 'e', 't', 's'] : List Char) =
      '/' :: ['t', 'a', 'r', 'g', 'e', 't', 's'] from rfl]
  rw [List.reverse_append]
  rw [show ('/' :: ['t', 'a', 'r', 'g', 'e', 't', 's']).reverse =
      's' :: ['t', 'e', 'g', 'r', 'a', 't', '/'] from by decide]
  rfl

/-- C7: the resources root is the value of `QEC_RESOURCES` when set and
the compiled-in install prefix otherwise, and a target's resource
directory is the root with the fixed "targets" component and the target's
resource-path name appended (`<root>/targets/<plugin-name>`). -/
theorem resources_dir_resolution (e : Option String) (v p name : String) :
    getResourcesDir (some v) p = v ∧
    getResourcesDir none p = p ∧
    (getResourcesDir e p ≠ "" → strEndsWith (getResourcesDir e p) "/" = false →
      strStartsWith name "/" = false →
      getTargetResourcesDir e p name =
        getResourcesDir e p ++ "/" ++ "targets" ++ "/" ++ name) := by
  refine ⟨rfl, rfl, ?_⟩
  intro h0 h1 h2
  rw [getTargetResourcesDir, pathAppendOne_sep _ _ h0 h1 (by decide),
    pathAppendOne_sep _ _ (targetsPath_ne_empty _) (strEndsWith_slash_targets _) h2]

/-- Witness for C7: environment override and install fallback at concrete
paths. -/
theorem resources_dir_resolution_witness :
    getResourcesDir (some "/opt/res") "/usr/lib/qec" = "/opt/res" ∧
    getResourcesDir none "/usr/lib/qec" = "/usr/lib/qec" ∧
    getTargetResourcesDir (some "/opt/res") "/usr/lib/qec" "mock" = "/opt/res/targets/mock" := by
  refine ⟨(resources_dir_resolution (some "/opt/res") "/opt/res" "/usr/lib/qec" "mock").1,
    (resources_dir_resolution none "/opt/res" "/usr/lib/qec" "mock").2.1, ?_⟩
  exact ((resources_dir_resolution (some "/opt/res") "/opt/res" "/usr/lib/qec" "mock").2.2
    (by decide) (by decide) (by decide)).trans (by decide)

/-- Helper: the verbosity step with an unset variable is the identity. -/
theorem populateVerbosity_unset (env : EnvState) (c : QEConfig)
    (hs : env.qecVerbosity = none) :
    EnvVarConfigBuilder.populateVerbosity env c = Except.ok c := by
  rw [EnvVarConfigBuilder.populateVerbosity, hs]

/-- Helper: the verbosity step with a recognized token sets exactly that
level. -/
theorem populateVerbosity_token (env : EnvState) (c : QEConfig) (s : String)
    (lvl : QEVerbosity) (hs : env.qecVerbosity = some s)
    (ht : verbosityToken? s = some lvl) :
    EnvVarConfigBuilder.populateVerbosity env c =
      Except.ok { c with verbosityLevel := lvl } := by
  rw [EnvVarConfigBuilder.populateVerbosity, hs]
  rw [verbosityToken?] at ht
  split_ifs at ht ⊢ <;> simp_all

/-- Helper: the verbosity step with an unrecognized token fails with the
descriptive message. -/
theorem populateVerbosity_bad (env : EnvState) (c : QEConfig) (s : String)
    (hs : env.qecVerbosity = some s) (ht : verbosityToken? s = none) :
    EnvVarConfigBuilder.populateVerbosity env c =
      Except.error ("QEC_VERBOSITY level unrecognized got (" ++ s ++
        "), options are ERROR, WARN, INFO, or DEBUG\n") := by
  rw [EnvVarConfigBuilder.populateVerbosity, hs]
  rw [verbosityToken?] at ht
  split_ifs at ht ⊢ <;> simp_all

/-- Helper: the max-threads step with an unset variable is the identity. -/
theorem populateMaxThreads_unset (env : EnvState) (c : QEConfig)
    (hm : env.qecMaxThreads = none) :
    EnvVarConfigBuilder.populateMaxThreads env c = Except.ok c := by
  rw [EnvVarConfigBuilder.populateMaxThreads, hm]

/-- Helper: the max-threads step with a value `consumeInteger` accepts
stores exactly the parsed cap. -/
theorem populateMaxThreads_parsed (env : EnvState) (c : QEConfig) (s : String) (v : Nat)
    (hm : env.qecMaxThreads = some s) (hp : llvmParseUInt? s = some v) :
    EnvVarConfigBuilder.populateMaxThreads env c =
      Except.ok { c with maxThreads := some v } := by
  rw [EnvVarConfigBuilder.populateMaxThreads, hm]
  rw [llvmParseUInt?] at hp
  by_cases h1 : (consumeDigits (getAutoSenseRadix s.toList).1 (getAutoSenseRadix s.toList).2
      0).2.length = (getAutoSenseRadix s.toList).2.length
  · rw [if_pos h1] at hp
    exact absurd hp (by simp)
  · rw [if_neg h1] at hp
    by_cases h3 : (consumeDigits (getAutoSenseRadix s.toList).1
        (getAutoSenseRadix s.toList).2 0).1 ≥ 2 ^ 32
    · rw [if_pos h3] at hp
      exact absurd hp (by simp)
    · rw [if_neg h3] at hp
      have h2 : ¬(consumeDigits (getAutoSenseRadix s.toList).1
          (getAutoSenseRadix s.toList).2 0).1 ≥ 2 ^ 64 :=
        fun hc => h3 (le_trans (by norm_num) hc)
      rw [Option.some.injEq] at hp
      simp only []
      rw [if_neg h1, if_neg h2, if_neg h3, hp]

/-- Helper: the max-threads step with a value `consumeInteger` rejects
fails. -/
theorem populateMaxThreads_fail (env : EnvState) (c : QEConfig) (s : String)
    (hm : env.qecMaxThreads = some s) (hp : llvmParseUInt? s = none) :
    ∃ m, EnvVarConfigBuilder.populateMaxThreads env c = Except.error m := by
  rw [EnvVarConfigBuilder.populateMaxThreads, hm]
  rw [llvmParseUInt?] at hp
  by_cases h1 : (consumeDigits (getAutoSenseRadix s.toList).1 (getAutoSenseRadix s.toList).2
      0).2.length = (getAutoSenseRadix s.toList).2.length
  · refine ⟨"Unable to parse maximum threads from \"" ++
      String.mk (getAutoSenseRadix s.toList).2 ++ "\"\n", ?_⟩
    simp only []
    rw [if_pos h1]
  · rw [if_neg h1] at hp
    by_cases h2 : (consumeDigits (getAutoSenseRadix s.toList).1
        (getAutoSenseRadix s.toList).2 0).1 ≥ 2 ^ 64
    · refine ⟨"Unable to parse maximum threads from \"" ++
        String.mk (getAutoSenseRadix s.toList).2 ++ "\"\n", ?_⟩
      simp only []
      rw [if_neg h1, if_pos h2]
    · by_cases h3 : (consumeDigits (getAutoSenseRadix s.toList).1
          (getAutoSenseRadix s.toList).2 0).1 ≥ 2 ^ 32
      · refine ⟨"Unable to parse maximum threads from \"" ++
          String.mk (consumeDigits (getAutoSenseRadix s.toList).1
            (getAutoSenseRadix s.toList).2 0).2 ++ "\"\n", ?_⟩
        simp only []
        rw [if_neg h1, if_neg h2, if_pos h3]
      · rw [if_neg h3] at hp
        exact absurd hp (by simp)

/-- Reduction of `Except.bind` on a success value. -/
theorem exceptBind_ok {α β : Type} (a : α) (f : α → Except String β) :
    Except.bind (Except.ok a) f = f a := rfl

/-- Reduction of `Except.bind` on an error value. -/
theorem exceptBind_error {α β : Type} (e : String) (f : α → Except String β) :
    Except.bind (Except.error e) f = Except.error e := rfl

/-- Helper: a successful environment stage sets the verbosity dictated by
a recognized `QEC_VERBOSITY` token. -/
theorem envPopulate_ok_verbosity (env : EnvState) (c0 c : QEConfig) (s : String)
    (lvl : QEVerbosity) (h : EnvVarConfigBuilder.populateConfig env c0 = Except.ok c)
    (hs : env.qecVerbosity = some s) (ht : verbosityToken? s = some lvl) :
    c.verbosityLevel = lvl := by
  simp only [EnvVarConfigBuilder.populateConfig, EnvVarConfigBuilder.populateConfigurationPath,
    EnvVarConfigBuilder.populateTarget, exceptBind_ok] at h
  rw [populateVerbosity_token env _ s lvl hs ht, exceptBind_ok] at h
  cases hm : env.qecMaxThreads with
  | none =>
    rw [populateMaxThreads_unset env _ hm, exceptBind_ok, Except.ok.injEq] at h
    rw [← h]
  | some s' =>
    cases hp : llvmParseUInt? s' with
    | none =>
      obtain ⟨m, hfail⟩ := populateMaxThreads_fail env _ s' hm hp
      rw [hfail, exceptBind_error] at h
      exact absurd h (by simp)
    | some v =>
      rw [populateMaxThreads_parsed env _ s' v hm hp, exceptBind_ok, Except.ok.injEq] at h
      rw [← h]

/-- Helper: a successful environment stage sets the thread cap dictated by
a parseable `QEC_MAX_THREADS` value. -/
theorem envPopulate_ok_maxThreads (env : EnvState) (c0 c : QEConfig) (s : String)
    (v : Nat) (h : EnvVarConfigBuilder.populateConfig env c0 = Except.ok c)
    (hm : env.qecMaxThreads = some s) (hp : llvmParseUInt? s = some v) :
    c.maxThreads = some v := by
  simp only [EnvVarConfigBuilder.populateConfig, EnvVarConfigBuilder.populateConfigurationPath,
    EnvVarConfigBuilder.populateTarget, exceptBind_ok] at h
  cases hv : env.qecVerbosity with
  | none =>
    rw [populateVerbosity_unset env _ hv, exceptBind_ok] at h
    rw [populateMaxThreads_parsed env _ s v hm hp, exceptBind_ok, Except.ok.injEq] at h
    rw [← h]
  | some sv =>
    cases htv : verbosityToken? sv with
    | none =>
      rw [populateVerbosity_bad env _ sv hv htv, exceptBind_error] at h
      exact absurd h (by simp)
    | some l =>
      rw [populateVerbosity_token env _ sv l hv htv, exceptBind_ok] at h
      rw [populateMaxThreads_parsed env _ s v hm hp, exceptBind_ok, Except.ok.injEq] at h
      rw [← h]

/-- Helper: an unrecognized `QEC_VERBOSITY` token makes the whole
environment stage fail with the descriptive message. -/
theorem envPopulate_bad_verbosity (env : EnvState) (c0 : QEConfig) (s : String)
    (hs : env.qecVerbosity = some s) (ht : verbosityToken? s = none) :
    EnvVarConfigBuilder.populateConfig env c0 =
      Except.error ("QEC_VERBOSITY level unrecognized got (" ++ s ++
        "), options are ERROR, WARN, INFO, or DEBUG\n") := by
  simp only [EnvVarConfigBuilder.populateConfig, EnvVarConfigBuilder.populateConfigurationPath,
    EnvVarConfigBuilder.populateTarget, exceptBind_ok]
  rw [populateVerbosity_bad env _ s hs ht, exceptBind_error]

/-- Helper: an unparseable `QEC_MAX_THREADS` value makes the whole
environment stage fail. -/
theorem envPopulate_bad_maxThreads (env : EnvState) (c0 : QEConfig) (s : String)
    (hm : env.qecMaxThreads = some s) (hp : llvmParseUInt? s = none) :
    ∃ m, EnvVarConfigBuilder.populateConfig env c0 = Except.error m := by
  simp only [EnvVarConfigBuilder.populateConfig, EnvVarConfigBuilder.populateConfigurationPath,
    EnvVarConfigBuilder.populateTarget, exceptBind_ok]
  cases hv : env.qecVerbosity with
  | none =>
    rw [populateVerbosity_unset env _ hv, exceptBind_ok]
    obtain ⟨m, hfail⟩ := populateMaxThreads_fail env _ s hm hp
    rw [hfail, exceptBind_error]
    exact ⟨m, rfl⟩
  | some sv =>
    cases htv : verbosityToken? sv with
    | none =>
      rw [populateVerbosity_bad env _ sv hv htv, exceptBind_error]
      exact ⟨_, rfl⟩
    | some l =>
      rw [populateVerbosity_token env _ sv l hv htv, exceptBind_ok]
      obtain ⟨m, hfail⟩ := populateMaxThreads_fail env _ s hm hp
      rw [hfail, exceptBind_error]
      exact ⟨m, rfl⟩

/-- C4: environment-stage validation — an unrecognized `QEC_VERBOSITY`
token (e.g. LOUD) fails `EnvVarConfigBuilder::populateConfig` with the
descriptive message, a `QEC_MAX_THREADS` value `consumeInteger` rejects
(e.g. a non-numeric string) fails it too, and a successful stage stores
exactly the level a recognized token denotes and the cap a parseable
value denotes. -/
theorem envvar_stage_validation (env : EnvState) (config : QEConfig) :
    (∀ s, env.qecVerbosity = some s → verbosityToken? s = none →
      EnvVarConfigBuilder.populateConfig env config =
        Except.error ("QEC_VERBOSITY level unrecognized got (" ++ s ++
          "), options are ERROR, WARN, INFO, or DEBUG\n")) ∧
    (∀ s, env.qecMaxThreads = some s → llvmParseUInt? s = none →
      ∃ m, EnvVarConfigBuilder.populateConfig env config = Except.error m) ∧
    (∀ s lvl c, env.qecVerbosity = some s → verbosityToken? s = some lvl →
      EnvVarConfigBuilder.populateConfig env config = Except.ok c →
      c.verbosityLevel = lvl) ∧
    (∀ s v c, env.qecMaxThreads = some s → llvmParseUInt? s = some v →
      EnvVarConfigBuilder.populateConfig env config = Except.ok c →
      c.maxThreads = some v) := by
  refine ⟨?_, ?_, ?_, ?_⟩
  · intro s hs ht
    exact envPopulate_bad_verbosity env config s hs ht
  · intro s hm hp
    exact envPopulate_bad_maxThreads env config s hm hp
  · intro s lvl c hs ht h
    exact envPopulate_ok_verbosity env config c s lvl h hs ht
  · intro s v c hm hp h
    exact envPopulate_ok_maxThreads env config c s v h hm hp

/-- Witness for C4: `QEC_VERBOSITY=LOUD` and a non-numeric
`QEC_MAX_THREADS` fail the stage; `QEC_VERBOSITY=DEBUG` with
`QEC_MAX_THREADS=4` yields Debug verbosity and a cap of 4. -/
theorem envvar_stage_validation_witness :
    EnvVarConfigBuilder.populateConfig ⟨none, none, some "LOUD", none⟩ defaultQEConfig =
      Except.error
        "QEC_VERBOSITY level unrecognized got (LOUD), options are ERROR, WARN, INFO, or DEBUG\n" ∧
    (∃ m, EnvVarConfigBuilder.populateConfig ⟨none, none, none, some "threads"⟩
      defaultQEConfig = Except.error m) ∧
    ({ defaultQEConfig with
        verbosityLevel := QEVerbosity.Debug
        maxThreads := some 4 } : QEConfig).verbosityLevel = QEVerbosity.Debug ∧
    ({ defaultQEConfig with
        verbosityLevel := QEVerbosity.Debug
        maxThreads := some 4 } : QEConfig).maxThreads = some 4 := by
  refine ⟨?_, ?_, ?_, ?_⟩
  · exact ((envvar_stage_validation ⟨none, none, some "LOUD", none⟩ defaultQEConfig).1
      "LOUD" rfl (by decide)).trans (by decide)
  · exact (envvar_stage_validation ⟨none, none, none, some "threads"⟩ defaultQEConfig).2.1
      "threads" rfl (by decide)
  · exact (envvar_stage_validation ⟨none, none, some "DEBUG", some "4"⟩ defaultQEConfig).2.2.1
      "DEBUG" QEVerbosity.Debug
      { defaultQEConfig with
        verbosityLevel := QEVerbosity.Debug
        maxThreads := some 4 }
      rfl (by decide) (by decide)
  · exact (envvar_stage_validation ⟨none, none, some "DEBUG", some "4"⟩ defaultQEConfig).2.2.2
      "4" 4
      { defaultQEConfig with
        verbosityLevel := QEVerbosity.Debug
        maxThreads := some 4 }
      rfl (by decide) (by decide)

/-- Helper: the command-line stage always succeeds and its effect on each
merge-if-present field is an overlay — an explicit CLI value wins, an
absent one leaves the incoming value, and the plugin-path lists are
appended to. -/
theorem cliPopulate_fields (clOptions config cfg' : QEConfig)
    (h : CLIConfigBuilder.populateConfig clOptions config = Except.ok cfg') :
    cfg'.verbosityLevel =
      (if clOptions.verbosityLevel ≠ QEVerbosity.VerbosityCnt then clOptions.verbosityLevel
       else config.verbosityLevel) ∧
    cfg'.targetName =
      (if clOptions.targetName.isSome then clOptions.targetName else config.targetName) ∧
    cfg'.targetConfigPath =
      (if clOptions.targetConfigPath.isSome then clOptions.targetConfigPath
       else config.targetConfigPath) ∧
    cfg'.maxThreads =
      (if clOptions.maxThreads.isSome then clOptions.maxThreads else config.maxThreads) ∧
    cfg'.passPlugins = config.passPlugins ++ clOptions.passPlugins ∧
    cfg'.dialectPlugins = config.dialectPlugins ++ clOptions.dialectPlugins := by
  by_cases h1 : clOptions.verbosityLevel = QEVerbosity.VerbosityCnt
  all_goals by_cases h2 : clOptions.targetName.isSome
  all_goals by_cases h3 : clOptions.targetConfigPath.isSome
  all_goals by_cases h4 : clOptions.maxThreads.isSome
  all_goals by_cases h5 : clOptions.emitBytecodeVersion.isSome
  all_goals
    simp only [CLIConfigBuilder.populateConfig, h1, h2, h3, h4, h5, ne_eq, not_true_eq_false,
      not_false_eq_true, if_true, if_false, ite_true, ite_false, Bool.false_eq_true,
      Except.ok.injEq] at h
  all_goals subst h
  all_goals simp [h1, h2, h3, h4, h5]

/-- The environment with only `QEC_VERBOSITY=DEBUG` set. -/
def envDebugOnly : EnvState := ⟨none, none, some "DEBUG", none⟩

/-- A parsed command line whose only explicit option is `-verbosity=error`. -/
def clVerbosityError : QEConfig :=
  { QEConfigCLOptionsInit with verbosityLevel := QEVerbosity.Error }

/-- C1 counterexample: command-line verbosity does **not** override the
environment variable regardless of the order of builder invocation — when
the environment stage runs after the command-line stage, the environment
value wins, because `populateVerbosity_` overwrites unconditionally
whenever `QEC_VERBOSITY` is set. With `-verbosity=error` parsed and
`QEC_VERBOSITY=DEBUG`, the CLI-then-environment composition yields Debug,
not Error. -/
theorem builder_order_counterexample :
    (Except.bind (CLIConfigBuilder.populateConfig clVerbosityError defaultQEConfig)
        (fun config => EnvVarConfigBuilder.populateConfig envDebugOnly config)).map
      (fun config => config.verbosityLevel) = Except.ok QEVerbosity.Debug ∧
    QEVerbosity.Debug ≠ QEVerbosity.Error := by
  refine ⟨?_, by decide⟩
  decide

/-- C1 (amended to the documented stage order: defaults, then environment,
then command line): each later stage's explicit value wins for the fields
both stages can set, a stage with no information for a field does not
clear the earlier stage's value (in particular an environment verbosity
survives a command line without a `-verbosity` flag), command-line
verbosity when given overrides the environment variable in this order,
and the plugin-path lists are appended to rather than replaced. -/
theorem builder_overlay_precedence (env : EnvState) (clOptions cfg cfg' : QEConfig)
    (henv : EnvVarConfigBuilder.populateConfig env defaultQEConfig = Except.ok cfg)
    (hcli : CLIConfigBuilder.populateConfig clOptions cfg = Except.ok cfg') :
    (clOptions.verbosityLevel ≠ QEVerbosity.VerbosityCnt →
      cfg'.verbosityLevel = clOptions.verbosityLevel) ∧
    (clOptions.verbosityLevel = QEVerbosity.VerbosityCnt →
      cfg'.verbosityLevel = cfg.verbosityLevel) ∧
    (env.qecVerbosity = some "DEBUG" → clOptions.verbosityLevel = QEVerbosity.VerbosityCnt →
      cfg'.verbosityLevel = QEVerbosity.Debug) ∧
    (clOptions.targetName.isSome = true → cfg'.targetName = clOptions.targetName) ∧
    (clOptions.targetName = none → cfg'.targetName = cfg.targetName) ∧
    (clOptions.targetConfigPath.isSome = true →
      cfg'.targetConfigPath = clOptions.targetConfigPath) ∧
    (clOptions.targetConfigPath = none → cfg'.targetConfigPath = cfg.targetConfigPath) ∧
    (clOptions.maxThreads.isSome = true → cfg'.maxThreads = clOptions.maxThreads) ∧
    (clOptions.maxThreads = none → cfg'.maxThreads = cfg.maxThreads) ∧
    cfg'.passPlugins = cfg.passPlugins ++ clOptions.passPlugins ∧
    cfg'.dialectPlugins = cfg.dialectPlugins ++ clOptions.dialectPlugins := by
  obtain ⟨hv, htn, htc, hmt, hpp, hdp⟩ := cliPopulate_fields clOptions cfg cfg' hcli
  refine ⟨?_, ?_, ?_, ?_, ?_, ?_, ?_, ?_, ?_, hpp, hdp⟩
  · intro h
    rw [hv, if_pos h]
  · intro h
    rw [hv, if_neg (by simp [h])]
  · intro hd h
    rw [hv, if_neg (by simp [h])]
    exact envPopulate_ok_verbosity env defaultQEConfig cfg "DEBUG" QEVerbosity.Debug henv hd
      (by decide)
  · intro h
    rw [htn, if_pos h]
  · intro h
    rw [htn, if_neg (by simp [h])]
  · intro h
    rw [htc, if_pos h]
  · intro h
    rw [htc, if_neg (by simp [h])]
  · intro h
    rw [hmt, if_pos h]
  · intro h
    rw [hmt, if_neg (by simp [h])]

/-- The configuration the environment stage produces from the defaults
under `envDebugOnly`. -/
def cfgAfterEnvDebug : QEConfig :=
  { defaultQEConfig with verbosityLevel := QEVerbosity.Debug }

/-- Witness for the amended C1: with `QEC_VERBOSITY=DEBUG`, a command line
carrying `-verbosity=error` wins, and a command line without a verbosity
flag keeps Debug. -/
theorem builder_overlay_precedence_witness :
    ({ cfgAfterEnvDebug with verbosityLevel := QEVerbosity.Error } : QEConfig).verbosityLevel =
      QEVerbosity.Error ∧
    cfgAfterEnvDebug.verbosityLevel = QEVerbosity.Debug := by
  constructor
  · exact (builder_overlay_precedence envDebugOnly clVerbosityError cfgAfterEnvDebug
      { cfgAfterEnvDebug with verbosityLevel := QEVerbosity.Error } (by decide) (by decide)).1
      (by decide)
  · exact (builder_overlay_precedence envDebugOnly QEConfigCLOptionsInit cfgAfterEnvDebug
      cfgAfterEnvDebug (by decide) (by decide)).2.2.1 rfl rfl
